import Mathlib

/-!
Verification of the proxy routing subsystem of cc-switch-tui:
the URL router (`src/src-tauri/src/proxy/url_router.rs`), the failover
switch manager (`src/src-tauri/src/proxy/failover_switch.rs`) and the URL
latency service (`src/src-tauri/src/services/url_latency.rs`), shallowly
embedded as pure Lean functions.  The database, the settings store and the
speed-test service are abstract collaborators: their return values appear as
oracle inputs and their state as explicit record fields, and every call the
code makes to them is recorded in an effect trace.
-/

namespace CcSwitch

/-- Circuit-breaker state.  Modelled from the spec: `CircuitBreakerState`
(the file `circuit_breaker.rs` is not part of the provided sources); one of
Closed, Open, HalfOpen, in-memory only. -/
inductive CircuitState where
  | Closed
  | Open
  | HalfOpen
deriving DecidableEq, Repr, Inhabited

/-- Modelled from the spec: `CircuitBreakerConfig` of §4.1.  The failure-rate
threshold (a float 0.5 in the source) is kept as an exact fraction
`error_rate_num / error_rate_den` so that the trip condition
`failure_rate ≥ error_rate_threshold` is the integer comparison
`failures * den ≥ num * total`. -/
structure CircuitBreakerConfig where
  failure_threshold : Nat := 3
  success_threshold : Nat := 2
  timeout_seconds : Nat := 30
  error_rate_num : Nat := 1
  error_rate_den : Nat := 2
  min_requests : Nat := 5
  window_size : Nat := 50
deriving DecidableEq, Repr, Inhabited

/-- Modelled from the spec: a single-URL circuit breaker (§4.1).  The rolling
window holds the most recent outcome first (`true` = success) and is capped
at `window_size`. -/
structure CircuitBreaker where
  config : CircuitBreakerConfig
  state : CircuitState := CircuitState.Closed
  consecutive_failures : Nat := 0
  consecutive_successes : Nat := 0
  window : List Bool := []
  opened_at : Option Nat := none
deriving DecidableEq, Repr, Inhabited

/-- Modelled from the spec: `CircuitBreakerStats` (§3). -/
structure CircuitBreakerStats where
  consecutive_failures : Nat
  consecutive_successes : Nat
  total_requests_in_window : Nat
  total_failures_in_window : Nat
  opened_at : Option Nat
deriving DecidableEq, Repr, Inhabited

namespace CircuitBreaker

/-- Modelled from the spec: push one outcome into the rolling window, keeping
the most recent `window_size` outcomes. -/
def pushWindow (cb : CircuitBreaker) (outcome : Bool) : List Bool :=
  (outcome :: cb.window).take cb.config.window_size

/-- Modelled from the spec: `record_success(with_permit)` (§4.1).
`consecutive_failures` resets to 0 on any recorded success (§3 invariant 4);
in `HalfOpen` — and in `Open` once traffic is admitted again, since URL-level
breakers pass `with_permit = false` and let requests through on cooldown
expiry — enough consecutive successes return the breaker to `Closed`. -/
def record_success (cb : CircuitBreaker) (_with_permit : Bool) : CircuitBreaker :=
  let cs := cb.consecutive_successes + 1
  let window := cb.pushWindow true
  match cb.state with
  | CircuitState.Closed =>
      { cb with consecutive_failures := 0, consecutive_successes := cs,
                window := window }
  | CircuitState.HalfOpen | CircuitState.Open =>
      if cb.config.success_threshold ≤ cs then
        { cb with state := CircuitState.Closed, consecutive_failures := 0,
                  consecutive_successes := cs, window := window,
                  opened_at := none }
      else
        { cb with state := CircuitState.HalfOpen, consecutive_failures := 0,
                  consecutive_successes := cs, window := window }

/-- Modelled from the spec: the trip condition in `Closed` (§4.1):
`consecutive_failures ≥ failure_threshold` OR
(`window_size ≥ min_requests` AND `failure_rate ≥ error_rate_threshold`). -/
def shouldTrip (cfg : CircuitBreakerConfig) (cf : Nat) (window : List Bool) : Bool :=
  let total := window.length
  let failures := (window.filter (fun b => !b)).length
  cfg.failure_threshold ≤ cf ||
    (cfg.min_requests ≤ total && cfg.error_rate_num * total ≤ failures * cfg.error_rate_den)

/-- Modelled from the spec: `record_failure(with_permit)` (§4.1).  In `Closed`
a failure may trip the breaker to `Open` recording `opened_at = now`; in
`HalfOpen` (and `Open`) a failure (re)opens the breaker and resets
`opened_at`. -/
def record_failure (cb : CircuitBreaker) (_with_permit : Bool) (now : Nat) : CircuitBreaker :=
  let cf := cb.consecutive_failures + 1
  let window := cb.pushWindow false
  match cb.state with
  | CircuitState.Closed =>
      if shouldTrip cb.config cf window then
        { cb with state := CircuitState.Open, consecutive_failures := cf,
                  consecutive_successes := 0, window := window,
                  opened_at := some now }
      else
        { cb with consecutive_failures := cf, consecutive_successes := 0,
                  window := window }
  | CircuitState.HalfOpen | CircuitState.Open =>
      { cb with state := CircuitState.Open, consecutive_failures := cf,
                consecutive_successes := 0, window := window,
                opened_at := some now }

/-- Modelled from the spec: `get_state()` — a pure read. -/
def get_state (cb : CircuitBreaker) : CircuitState := cb.state

/-- Modelled from the spec: `get_stats()` — a pure read. -/
def get_stats (cb : CircuitBreaker) : CircuitBreakerStats :=
  { consecutive_failures := cb.consecutive_failures
    consecutive_successes := cb.consecutive_successes
    total_requests_in_window := cb.window.length
    total_failures_in_window := (cb.window.filter (fun b => !b)).length
    opened_at := cb.opened_at }

end CircuitBreaker

/-- `ProviderEndpoint` from `proxy/types.rs` as used by the router and the
latency service: a candidate base URL with persisted health data. -/
structure ProviderEndpoint where
  id : Nat
  provider_id : String
  app_type : String
  url : String
  latency_ms : Option Nat
  last_tested_at : Option Nat
  is_healthy : Bool
  consecutive_failures : Nat
  is_primary : Bool
deriving DecidableEq, Repr, Inhabited

/-- `ProxyAppConfig` — per-app proxy settings; only `enabled` is consulted by
the failover switch. -/
structure ProxyAppConfig where
  enabled : Bool
deriving DecidableEq, Repr, Inhabited

/-- `AppType` — the closed three-variant enumeration. -/
inductive AppType where
  | Claude
  | Codex
  | Gemini
deriving DecidableEq, Repr, Inhabited

/-- Modelled from the spec: `AppType::from_str` (the file `app_config.rs` is
not part of the provided sources).  Exactly the three known application
identifiers parse; every other string fails. -/
def AppType.fromStr (s : String) : Option AppType :=
  if s == "claude" then some AppType.Claude
  else if s == "codex" then some AppType.Codex
  else if s == "gemini" then some AppType.Gemini
  else none

/-- One call the core makes to a collaborator (database or settings store).
The effect trace of an embedded operation lists these calls in order. -/
inductive DbEffect where
  | updateEndpointHealth (app_type provider_id url : String)
      (latency_ms : Option Nat) (is_healthy : Bool) (consecutive_failures : Nat)
  | setPrimaryEndpoint (app_type provider_id url : String)
  | setCurrentProvider (app_type provider_id : String)
  | settingsSetCurrentProvider (app : AppType) (provider_id : Option String)
deriving DecidableEq, Repr, Inhabited

/-- The endpoint table of the database restricted to one
`(app_type, provider_id)` pair — the only rows the embedded operations
touch. -/
abbrev EndpointDb := List ProviderEndpoint

/-- `Database.update_endpoint_health`: upsert by URL — update the health
fields of every row with this URL, or append a fresh row when absent. -/
def update_endpoint_health (app_type provider_id url : String)
    (latency_ms : Option Nat) (is_healthy : Bool) (consecutive_failures : Nat)
    (db : EndpointDb) : EndpointDb :=
  if db.any (fun e => e.url == url) then
    db.map (fun e =>
      if e.url == url then
        { e with latency_ms := latency_ms, is_healthy := is_healthy,
                 consecutive_failures := consecutive_failures }
      else e)
  else
    db ++ [{ id := 0, provider_id := provider_id, app_type := app_type,
             url := url, latency_ms := latency_ms, last_tested_at := none,
             is_healthy := is_healthy,
             consecutive_failures := consecutive_failures,
             is_primary := false }]

/-- `Database.set_primary_endpoint`: atomically make the row with this URL
the unique primary. -/
def set_primary_endpoint (url : String) (db : EndpointDb) : EndpointDb :=
  db.map (fun e => { e with is_primary := e.url == url })

/-- Look up the persisted record for a URL. -/
def findEndpoint (db : EndpointDb) (url : String) : Option ProviderEndpoint :=
  db.find? (fun e => e.url == url)

/-- `UrlRouter::record_url_result` (url_router.rs:151-184): drive the URL's
breaker with the outcome (always `with_permit = false`), then persist
`is_healthy = (state ≠ Open)` and the breaker's post-update
`consecutive_failures` together with the reported latency.  The breaker is
the one registered for this URL; `now` time-stamps a potential `Open`
transition.  Returns the updated breaker, the updated endpoint table and the
effect trace. -/
def record_url_result (provider_id app_type url : String)
    (success : Bool) (latency_ms : Option Nat)
    (breaker : CircuitBreaker) (now : Nat) (db : EndpointDb) :
    CircuitBreaker × EndpointDb × List DbEffect :=
  let breaker' :=
    if success then breaker.record_success false
    else breaker.record_failure false now
  let breaker_state := breaker'.get_state
  let consecutive_failures := breaker'.get_stats.consecutive_failures
  let is_healthy := breaker_state != CircuitState.Open
  (breaker',
   update_endpoint_health app_type provider_id url latency_ms is_healthy
     consecutive_failures db,
   [DbEffect.updateEndpointHealth app_type provider_id url latency_ms
      is_healthy consecutive_failures])

/-- Rust's `str::trim_end_matches('/')`: drop every trailing slash. -/
def trimTrailingSlash (s : String) : String :=
  String.mk ((s.toList.reverse.dropWhile (fun c => c == '/')).reverse)

/-- `UrlRouter::get_all_urls` (url_router.rs:111-148): load the persisted
endpoints (the database read may fail, and the failure is propagated as an
internal proxy error); when the normalized `config_base_url` is not among
them, prepend it as a virtual endpoint — healthy, unmeasured, and primary
exactly when the loaded list was empty. -/
def get_all_urls (provider_id app_type config_base_url : String)
    (dbRead : Except String (List ProviderEndpoint)) :
    Except String (List ProviderEndpoint) := do
  let endpoints ← dbRead
  let config_url_normalized := trimTrailingSlash config_base_url
  let config_exists :=
    endpoints.any (fun e => trimTrailingSlash e.url == config_url_normalized)
  if config_exists then
    pure endpoints
  else
    pure ({ id := 0, provider_id := provider_id, app_type := app_type,
            url := config_base_url, latency_ms := none,
            last_tested_at := none, is_healthy := true,
            consecutive_failures := 0,
            is_primary := endpoints.isEmpty } :: endpoints)

/-- The comparator passed to `sort_by` in `select_url`
(url_router.rs:82-97): primary endpoints first, then ascending latency with
`None` after `Some`. -/
def cmpEndpoints (a b : ProviderEndpoint) : Ordering :=
  if a.is_primary && !b.is_primary then Ordering.lt
  else if !a.is_primary && b.is_primary then Ordering.gt
  else
    match a.latency_ms, b.latency_ms with
    | some la, some lb => compare la lb
    | some _, none => Ordering.lt
    | none, some _ => Ordering.gt
    | none, none => Ordering.eq

/-- `a` sorts no later than `b` under `cmpEndpoints`. -/
def leEndpoints (a b : ProviderEndpoint) : Bool :=
  cmpEndpoints a b != Ordering.gt

/-- Stable insertion into a sorted list (the embedding of Rust's stable
`Vec::sort_by`). -/
def insertLe (le : ProviderEndpoint → ProviderEndpoint → Bool)
    (a : ProviderEndpoint) : List ProviderEndpoint → List ProviderEndpoint
  | [] => [a]
  | b :: l => if le a b then a :: b :: l else b :: insertLe le a l

/-- Stable sort by a total comparator — the embedding of `Vec::sort_by`,
which is a stable sort, so its head is the leftmost minimal element. -/
def sortByLe (le : ProviderEndpoint → ProviderEndpoint → Bool) :
    List ProviderEndpoint → List ProviderEndpoint
  | [] => []
  | a :: l => insertLe le a (sortByLe le l)

/-- `UrlRouter::select_url` (url_router.rs:48-108).  The database read
outcome appears as `dbRead`; the breaker registry appears as the
availability predicate `avail` (`avail u` is what `is_available()` returns
for the breaker keyed by this provider and the hash of `u`).  Load all
candidate URLs (propagating a database failure), keep the breaker-available
ones, degrade to `config_base_url` when none remain, otherwise sort by the
comparator and return the first URL. -/
def select_url (provider_id app_type config_base_url : String)
    (dbRead : Except String (List ProviderEndpoint))
    (avail : String → Bool) : Except String String := do
  let endpoints ← get_all_urls provider_id app_type config_base_url dbRead
  if endpoints.isEmpty then
    pure config_base_url
  else
    let available_urls := endpoints.filter (fun e => avail e.url)
    if available_urls.isEmpty then
      pure config_base_url
    else
      let sorted := sortByLe leEndpoints available_urls
      pure (sorted.headI.url)

/-- The collaborator outcomes one `do_switch` call can observe: the result of
`Database.get_proxy_config_for_app`, of `Database.set_current_provider` and
of `settings::set_current_provider`. -/
structure SwitchOracle where
  proxyConfig : Except String ProxyAppConfig
  setCurrentProviderResult : Except String Unit
  settingsResult : Except String Unit

/-- The provider-selection state the failover switch can change: the
database's current provider per app-type string, and the device-local
settings' current provider per parsed `AppType`. -/
structure SwitchDb where
  current : String → Option String
  device : AppType → Option String

/-- `FailoverSwitchManager::do_switch` (failover_switch.rs:70-105).  Reads
the app's proxy config — a failed read or `enabled = false` declines with
`Ok(false)`.  Otherwise it flips the database's current provider, then
parses the app type (failing with an invalid-app-type error *after* the
database flip), then writes the device-local settings, and reports
`Ok(true)`. -/
def do_switch (oracle : SwitchOracle) (app_type provider_id _provider_name : String)
    (db : SwitchDb) : Except String Bool × SwitchDb × List DbEffect :=
  match oracle.proxyConfig with
  | Except.error _ => (Except.ok false, db, [])
  | Except.ok config =>
    if !config.enabled then (Except.ok false, db, [])
    else
      match oracle.setCurrentProviderResult with
      | Except.error e =>
          (Except.error e, db, [DbEffect.setCurrentProvider app_type provider_id])
      | Except.ok () =>
        let db := { db with
          current := fun a => if a == app_type then some provider_id else db.current a }
        match AppType.fromStr app_type with
        | none =>
            (Except.error ("无效的应用类型: " ++ app_type), db,
             [DbEffect.setCurrentProvider app_type provider_id])
        | some app_type_enum =>
          match oracle.settingsResult with
          | Except.error e =>
              (Except.error e, db,
               [DbEffect.setCurrentProvider app_type provider_id,
                DbEffect.settingsSetCurrentProvider app_type_enum (some provider_id)])
          | Except.ok () =>
              (Except.ok true,
               { db with device := fun a =>
                   if a == app_type_enum then some provider_id else db.device a },
               [DbEffect.setCurrentProvider app_type provider_id,
                DbEffect.settingsSetCurrentProvider app_type_enum (some provider_id)])

/-- `FailoverSwitchManager::try_switch` (failover_switch.rs:40-68).  The
`pending_switches` hash set is embedded as a duplicate-free list of keys.
If the key `"{app_type}:{provider_id}"` is already pending the call
coalesces to `Ok(false)` untouched; otherwise the key is inserted,
`do_switch` runs, and the key is removed again before the result — whatever
it is — is returned. -/
def try_switch (oracle : SwitchOracle) (pending : List String)
    (app_type provider_id provider_name : String) (db : SwitchDb) :
    Except String Bool × List String × SwitchDb × List DbEffect :=
  let switch_key := app_type ++ ":" ++ provider_id
  if pending.contains switch_key then
    (Except.ok false, pending, db, [])
  else
    let pending' := switch_key :: pending
    let (result, db', effects) := do_switch oracle app_type provider_id provider_name db
    (result, pending'.erase switch_key, db', effects)

/-- One per-URL probe outcome returned by
`SpeedtestService::test_endpoints`. -/
structure SpeedResult where
  url : String
  latency : Option Nat
  error : Option String
deriving DecidableEq, Repr, Inhabited

/-- The in-memory breaker registry of the router, restricted to one provider:
the breaker registered for each URL (`get_or_create_circuit_breaker` keys by
the provider id and a 64-bit hash of the URL). -/
abbrev BreakerMap := String → CircuitBreaker

/-- The per-result body of the loop in
`UrlLatencyService::test_provider_endpoints` (url_latency.rs:126-153): look
the probed URL up in the endpoint snapshot taken at the start of the call;
if present, persist `is_healthy = (error is none ∧ latency is some)` with
`consecutive_failures = 0` when healthy and the snapshot's value + 1
otherwise, then synchronize the breaker through
`UrlRouter::record_url_result`, which issues a second health write. -/
def processSpeedResult (app_type provider_id : String)
    (snapshot : List ProviderEndpoint) (now : Nat) (r : SpeedResult)
    (st : EndpointDb × BreakerMap × List DbEffect) :
    EndpointDb × BreakerMap × List DbEffect :=
  let (db, breakers, effects) := st
  let latency_ms := r.latency
  let is_healthy := r.error.isNone && r.latency.isSome
  match snapshot.find? (fun e => e.url == r.url) with
  | none => (db, breakers, effects)
  | some endpoint =>
    let consecutive_failures :=
      if is_healthy then 0 else endpoint.consecutive_failures + 1
    let db :=
      update_endpoint_health app_type provider_id r.url latency_ms is_healthy
        consecutive_failures db
    let eff1 :=
      DbEffect.updateEndpointHealth app_type provider_id r.url latency_ms
        is_healthy consecutive_failures
    let (breaker', db', effs2) :=
      record_url_result provider_id app_type r.url is_healthy latency_ms
        (breakers r.url) now db
    (db', fun u => if u == r.url then breaker' else breakers u,
     effects ++ eff1 :: effs2)

/-- `UrlLatencyService::update_primary_endpoint` (url_latency.rs:162-179).
The outcome of `Database.get_best_endpoint_url` appears as the oracle
`best`; a read error propagates, a `none` answer leaves the table untouched,
and a `some url` answer persists that URL as the primary endpoint. -/
def update_primary_endpoint (app_type provider_id : String)
    (best : Except String (Option String)) (db : EndpointDb) :
    Except String Unit × EndpointDb × List DbEffect :=
  match best with
  | Except.error e => (Except.error e, db, [])
  | Except.ok none => (Except.ok (), db, [])
  | Except.ok (some best_url) =>
      (Except.ok (), set_primary_endpoint best_url db,
       [DbEffect.setPrimaryEndpoint app_type provider_id best_url])

/-- `UrlLatencyService::test_provider_endpoints` (url_latency.rs:106-159).
The endpoint snapshot is read from the table first (a failed read would
propagate before any write; the successful read is the table itself); an
empty snapshot returns at once; otherwise the speed-test oracle's results
are folded through `processSpeedResult` and the primary endpoint is
refreshed from the `best` oracle. -/
def test_provider_endpoints (app_type provider_id : String)
    (speedtest : Except String (List SpeedResult))
    (best : Except String (Option String)) (now : Nat)
    (db : EndpointDb) (breakers : BreakerMap) :
    Except String Unit × EndpointDb × BreakerMap × List DbEffect :=
  let endpoints := db
  if endpoints.isEmpty then (Except.ok (), db, breakers, [])
  else
    match speedtest with
    | Except.error e => (Except.error e, db, breakers, [])
    | Except.ok results =>
      let (db', breakers', effects) :=
        results.foldl
          (fun st r => processSpeedResult app_type provider_id endpoints now r st)
          (db, breakers, [])
      match update_primary_endpoint app_type provider_id best db' with
      | (Except.error e, db'', effs2) =>
          (Except.error e, db'', breakers', effects ++ effs2)
      | (Except.ok (), db'', effs2) =>
          (Except.ok (), db'', breakers', effects ++ effs2)

/-! ## Properties of the sort comparator -/

theorem leEndpoints_eq_true_iff (a b : ProviderEndpoint) :
    leEndpoints a b = true ↔ cmpEndpoints a b ≠ Ordering.gt := by
  simp only [leEndpoints]
  cases h : cmpEndpoints a b
  all_goals decide

theorem leEndpoints_refl (a : ProviderEndpoint) : leEndpoints a a = true := by
  rw [leEndpoints_eq_true_iff]
  cases pa : a.is_primary <;> cases la : a.latency_ms <;>
    simp_all [cmpEndpoints, Nat.compare_eq_gt]

theorem leEndpoints_total (a b : ProviderEndpoint) :
    (leEndpoints a b || leEndpoints b a) = true := by
  simp only [Bool.or_eq_true, leEndpoints_eq_true_iff]
  cases pa : a.is_primary <;> cases pb : b.is_primary <;>
    cases la : a.latency_ms <;> cases lb : b.latency_ms <;>
    simp_all [cmpEndpoints, Nat.compare_eq_gt] <;> omega

theorem leEndpoints_trans (a b c : ProviderEndpoint)
    (h1 : leEndpoints a b = true) (h2 : leEndpoints b c = true) :
    leEndpoints a c = true := by
  rw [leEndpoints_eq_true_iff] at h1 h2 ⊢
  cases pa : a.is_primary <;> cases pb : b.is_primary <;> cases pc : c.is_primary <;>
    cases la : a.latency_ms <;> cases lb : b.latency_ms <;> cases lc : c.latency_ms <;>
    simp_all [cmpEndpoints, Nat.compare_eq_gt] <;> omega

/-! ## Properties of the stable sort -/

theorem mem_insertLe (le : ProviderEndpoint → ProviderEndpoint → Bool)
    (a x : ProviderEndpoint) (l : List ProviderEndpoint) :
    x ∈ insertLe le a l ↔ x = a ∨ x ∈ l := by
  induction l with
  | nil => simp [insertLe]
  | cons b t ih =>
    cases h : le a b <;> simp [insertLe, h, ih]
    tauto

theorem mem_sortByLe (le : ProviderEndpoint → ProviderEndpoint → Bool)
    (x : ProviderEndpoint) (l : List ProviderEndpoint) :
    x ∈ sortByLe le l ↔ x ∈ l := by
  induction l with
  | nil => simp [sortByLe]
  | cons a t ih => simp [sortByLe, mem_insertLe, ih]

theorem length_insertLe (le : ProviderEndpoint → ProviderEndpoint → Bool)
    (a : ProviderEndpoint) (l : List ProviderEndpoint) :
    (insertLe le a l).length = l.length + 1 := by
  induction l with
  | nil => simp [insertLe]
  | cons b t ih => cases h : le a b <;> simp [insertLe, h, ih]

theorem length_sortByLe (le : ProviderEndpoint → ProviderEndpoint → Bool)
    (l : List ProviderEndpoint) : (sortByLe le l).length = l.length := by
  induction l with
  | nil => rfl
  | cons a t ih => simp [sortByLe, length_insertLe, ih]

theorem sortByLe_ne_nil (le : ProviderEndpoint → ProviderEndpoint → Bool)
    (l : List ProviderEndpoint) (h : l ≠ []) : sortByLe le l ≠ [] := by
  intro hnil
  have := length_sortByLe le l
  rw [hnil] at this
  exact h (List.length_eq_zero.mp this.symm)

theorem pairwise_insertLe (le : ProviderEndpoint → ProviderEndpoint → Bool)
    (htot : ∀ x y, (le x y || le y x) = true)
    (htrans : ∀ x y z, le x y = true → le y z = true → le x z = true)
    (p : ProviderEndpoint) (l : List ProviderEndpoint)
    (h : l.Pairwise (fun x y => le x y = true)) :
    (insertLe le p l).Pairwise (fun x y => le x y = true) := by
  induction l with
  | nil => simp [insertLe]
  | cons b t ih =>
    have hb : ∀ y ∈ t, le b y = true := (List.pairwise_cons.mp h).1
    have ht : t.Pairwise (fun x y => le x y = true) := (List.pairwise_cons.mp h).2
    cases hpb : le p b with
    | true =>
      simp only [insertLe, hpb, if_true]
      refine List.pairwise_cons.mpr ⟨?_, h⟩
      intro y hy
      rcases List.mem_cons.mp hy with hy | hy
      · exact hy ▸ hpb
      · exact htrans p b y hpb (hb y hy)
    | false =>
      simp only [insertLe, hpb, Bool.false_eq_true, if_false]
      refine List.pairwise_cons.mpr ⟨?_, ih ht⟩
      intro y hy
      rcases (mem_insertLe le p y t).mp hy with hy | hy
      · rw [hy]
        have hor := htot p b
        rw [hpb] at hor
        simpa using hor
      · exact hb y hy

theorem pairwise_sortByLe (le : ProviderEndpoint → ProviderEndpoint → Bool)
    (htot : ∀ a b, (le a b || le b a) = true)
    (htrans : ∀ a b c, le a b = true → le b c = true → le a c = true)
    (l : List ProviderEndpoint) :
    (sortByLe le l).Pairwise (fun x y => le x y = true) := by
  induction l with
  | nil => simp [sortByLe]
  | cons a t ih => exact pairwise_insertLe le htot htrans a _ ih

theorem headI_le_of_pairwise (le : ProviderEndpoint → ProviderEndpoint → Bool)
    (hrefl : ∀ x, le x x = true) (l : List ProviderEndpoint) (hne : l ≠ [])
    (hp : l.Pairwise (fun x y => le x y = true)) :
    ∀ x ∈ l, le l.headI x = true := by
  cases l with
  | nil => exact absurd rfl hne
  | cons a t =>
    intro x hx
    rcases List.mem_cons.mp hx with hx | hx
    · exact hx ▸ hrefl a
    · exact (List.pairwise_cons.mp hp).1 x hx

/-- Reduction of `select_url` once the database read has succeeded with the
candidate list `all`. -/
theorem select_url_ok (provider_id app_type config_base_url : String)
    (avail : String → Bool) (dbRead : Except String (List ProviderEndpoint))
    (all : List ProviderEndpoint)
    (hall : get_all_urls provider_id app_type config_base_url dbRead =
      Except.ok all) :
    select_url provider_id app_type config_base_url dbRead avail =
      (if all.isEmpty then Except.ok config_base_url
       else if (all.filter (fun e => avail e.url)).isEmpty then
         Except.ok config_base_url
       else
         Except.ok
           ((sortByLe leEndpoints (all.filter (fun e => avail e.url))).headI.url)) := by
  unfold select_url
  rw [hall]
  rfl

/-- C1 counterexample: when the database read of the endpoint list fails,
`select_url` does not degrade to `config_base_url` — it propagates the
failure to its caller (`get_all_urls` maps the error into
`ProxyError::Internal` and `select_url` returns it via `?`). -/
theorem select_url_db_error_cex :
    select_url "p1" "claude" "https://a.example" (Except.error "boom")
      (fun _ => true) = Except.error "boom" := rfl

/-- C1 (amended): whenever the database read of the endpoint list succeeds,
`select_url` returns a URL (never an error), and whenever additionally the
set of breaker-available candidates is empty it returns `config_base_url`
unchanged; a failed database read, however, is propagated as an error. -/
theorem select_url_total_on_ok (provider_id app_type config_base_url : String)
    (avail : String → Bool) (eps all : List ProviderEndpoint)
    (hall : get_all_urls provider_id app_type config_base_url (Except.ok eps) =
      Except.ok all) :
    (∃ u, select_url provider_id app_type config_base_url (Except.ok eps) avail =
      Except.ok u) ∧
    (all.filter (fun e => avail e.url) = [] →
      select_url provider_id app_type config_base_url (Except.ok eps) avail =
        Except.ok config_base_url) := by
  rw [select_url_ok provider_id app_type config_base_url avail (Except.ok eps) all hall]
  constructor
  · by_cases h1 : all.isEmpty
    · exact ⟨config_base_url, by simp [h1]⟩
    · by_cases h2 : (all.filter (fun e => avail e.url)).isEmpty
      · exact ⟨config_base_url, by simp [h1, h2]⟩
      · exact ⟨(sortByLe leEndpoints (all.filter (fun e => avail e.url))).headI.url,
          by simp [h1, h2]⟩
  · intro hfil
    have h2 : (all.filter (fun e => avail e.url)).isEmpty = true := by
      simp [hfil]
    by_cases h1 : all.isEmpty <;> simp [h1, h2]

/-- Witness for the amended C1 at a concrete input: an empty endpoint table
and a breaker registry reporting every URL unavailable degrade to the config
base URL. -/
theorem select_url_total_on_ok_witness :
    select_url "p1" "claude" "https://c" (Except.ok []) (fun _ => false) =
      Except.ok "https://c" :=
  (select_url_total_on_ok "p1" "claude" "https://c" (fun _ => false) []
      [{ id := 0, provider_id := "p1", app_type := "claude", url := "https://c",
         latency_ms := none, last_tested_at := none, is_healthy := true,
         consecutive_failures := 0, is_primary := true }]
      rfl).2 rfl

/-- C2: a URL returned by `select_url` always has an available breaker,
except that when every candidate's breaker is unavailable the returned value
is exactly the input `config_base_url`. -/
theorem select_url_avoids_open (provider_id app_type config_base_url : String)
    (avail : String → Bool) (eps all : List ProviderEndpoint) (u : String)
    (hall : get_all_urls provider_id app_type config_base_url (Except.ok eps) =
      Except.ok all)
    (hu : select_url provider_id app_type config_base_url (Except.ok eps) avail =
      Except.ok u) :
    avail u = true ∨
      ((∀ e ∈ all, avail e.url = false) ∧ u = config_base_url) := by
  rw [select_url_ok provider_id app_type config_base_url avail (Except.ok eps) all hall]
    at hu
  by_cases h1 : all.isEmpty
  · right
    refine ⟨?_, ?_⟩
    · intro e he
      rw [List.isEmpty_iff.mp h1] at he
      simp at he
    · simp [h1] at hu
      exact hu.symm
  · by_cases h2 : (all.filter (fun e => avail e.url)).isEmpty
    · right
      refine ⟨?_, ?_⟩
      · intro e he
        have hnil := List.isEmpty_iff.mp h2
        have := List.filter_eq_nil_iff.mp hnil e he
        simpa using this
      · simp [h1, h2] at hu
        exact hu.symm
    · left
      simp only [h1, h2, Bool.false_eq_true, if_false] at hu
      have hne : all.filter (fun e => avail e.url) ≠ [] := by
        intro hnil
        rw [hnil] at h2
        simp at h2
      have hsne := sortByLe_ne_nil leEndpoints _ hne
      have hmem : (sortByLe leEndpoints (all.filter (fun e => avail e.url))).headI ∈
          sortByLe leEndpoints (all.filter (fun e => avail e.url)) := by
        cases hs : sortByLe leEndpoints (all.filter (fun e => avail e.url)) with
        | nil => exact absurd hs hsne
        | cons a t => simp [List.headI]
      have hmemf := (mem_sortByLe leEndpoints _ _).mp hmem
      have := (List.mem_filter.mp hmemf).2
      have hequ := Except.ok.inj hu
      rw [hequ] at this
      exact this

/-- Witness for C2 at a concrete input: one persisted endpoint whose breaker
is available, a config URL whose virtual endpoint's breaker is not; the
selected URL "https://a" is breaker-available. -/
theorem select_url_avoids_open_witness :
    (fun u => u == "https://a") "https://a" = true ∨
      ((∀ e ∈
          ([{ id := 0, provider_id := "p1", app_type := "claude",
              url := "https://c", latency_ms := none, last_tested_at := none,
              is_healthy := true, consecutive_failures := 0,
              is_primary := false },
            { id := 1, provider_id := "p1", app_type := "claude",
              url := "https://a", latency_ms := some 50, last_tested_at := none,
              is_healthy := true, consecutive_failures := 0,
              is_primary := false }] : List ProviderEndpoint),
          (fun u => u == "https://a") e.url = false) ∧
        ("https://a" : String) = "https://c") :=
  select_url_avoids_open "p1" "claude" "https://c" (fun u => u == "https://a")
    [{ id := 1, provider_id := "p1", app_type := "claude",
       url := "https://a", latency_ms := some 50, last_tested_at := none,
       is_healthy := true, consecutive_failures := 0, is_primary := false }]
    [{ id := 0, provider_id := "p1", app_type := "claude", url := "https://c",
       latency_ms := none, last_tested_at := none, is_healthy := true,
       consecutive_failures := 0, is_primary := false },
     { id := 1, provider_id := "p1", app_type := "claude", url := "https://a",
       latency_ms := some 50, last_tested_at := none, is_healthy := true,
       consecutive_failures := 0, is_primary := false }]
    "https://a" rfl rfl

/-- C6: when the breaker-available candidate list is non-empty, `select_url`
returns the URL of an endpoint that is minimal under the sort ordering:
`is_primary` descending first, then `latency_ms` ascending with `None`
comparing after `Some`. -/
theorem select_url_returns_min (provider_id app_type config_base_url : String)
    (avail : String → Bool) (eps all : List ProviderEndpoint)
    (hall : get_all_urls provider_id app_type config_base_url (Except.ok eps) =
      Except.ok all)
    (hne : all.filter (fun e => avail e.url) ≠ []) :
    ∃ sel ∈ all.filter (fun e => avail e.url),
      select_url provider_id app_type config_base_url (Except.ok eps) avail =
        Except.ok sel.url ∧
      ∀ e ∈ all.filter (fun e => avail e.url), leEndpoints sel e = true := by
  have h1 : all.isEmpty = false := by
    cases all with
    | nil => simp at hne
    | cons a t => rfl
  have h2 : (all.filter (fun e => avail e.url)).isEmpty = false := by
    cases hf : all.filter (fun e => avail e.url) with
    | nil => exact absurd hf hne
    | cons a t => rfl
  have hsne := sortByLe_ne_nil leEndpoints _ hne
  have hmem : (sortByLe leEndpoints (all.filter (fun e => avail e.url))).headI ∈
      sortByLe leEndpoints (all.filter (fun e => avail e.url)) := by
    cases hs : sortByLe leEndpoints (all.filter (fun e => avail e.url)) with
    | nil => exact absurd hs hsne
    | cons a t => simp [List.headI]
  refine ⟨(sortByLe leEndpoints (all.filter (fun e => avail e.url))).headI,
    (mem_sortByLe leEndpoints _ _).mp hmem, ?_, ?_⟩
  · rw [select_url_ok provider_id app_type config_base_url avail (Except.ok eps)
      all hall]
    simp [h1, h2]
  · intro e he
    have hpw := pairwise_sortByLe leEndpoints leEndpoints_total
      (fun a b c => leEndpoints_trans a b c) (all.filter (fun e => avail e.url))
    have hmin := headI_le_of_pairwise leEndpoints leEndpoints_refl _ hsne hpw
    exact hmin e ((mem_sortByLe leEndpoints e _).mpr he)

/-- Witness for C6 at a concrete input: endpoints A (primary, latency 200)
and B (latency 80), both breaker-available; the primary endpoint A is the
minimum and is selected even though B has the lower latency. -/
theorem select_url_returns_min_witness :
    ∃ sel ∈ List.filter (fun e => (fun _ => true) e.url)
        [{ id := 1, provider_id := "p1", app_type := "claude",
           url := "https://a", latency_ms := some 200, last_tested_at := none,
           is_healthy := true, consecutive_failures := 0, is_primary := true },
         { id := 2, provider_id := "p1", app_type := "claude",
           url := "https://b", latency_ms := some 80, last_tested_at := none,
           is_healthy := true, consecutive_failures := 0, is_primary := false }],
      select_url "p1" "claude" "https://a"
        (Except.ok
          [{ id := 1, provider_id := "p1", app_type := "claude",
             url := "https://a", latency_ms := some 200, last_tested_at := none,
             is_healthy := true, consecutive_failures := 0, is_primary := true },
           { id := 2, provider_id := "p1", app_type := "claude",
             url := "https://b", latency_ms := some 80, last_tested_at := none,
             is_healthy := true, consecutive_failures := 0,
             is_primary := false }]) (fun _ => true) = Except.ok sel.url ∧
      ∀ e ∈ List.filter (fun e => (fun _ => true) e.url)
          [{ id := 1, provider_id := "p1", app_type := "claude",
             url := "https://a", latency_ms := some 200, last_tested_at := none,
             is_healthy := true, consecutive_failures := 0, is_primary := true },
           { id := 2, provider_id := "p1", app_type := "claude",
             url := "https://b", latency_ms := some 80, last_tested_at := none,
             is_healthy := true, consecutive_failures := 0,
             is_primary := false }],
        leEndpoints sel e = true :=
  select_url_returns_min "p1" "claude" "https://a" (fun _ => true)
    [{ id := 1, provider_id := "p1", app_type := "claude",
       url := "https://a", latency_ms := some 200, last_tested_at := none,
       is_healthy := true, consecutive_failures := 0, is_primary := true },
     { id := 2, provider_id := "p1", app_type := "claude",
       url := "https://b", latency_ms := some 80, last_tested_at := none,
       is_healthy := true, consecutive_failures := 0, is_primary := false }]
    [{ id := 1, provider_id := "p1", app_type := "claude",
       url := "https://a", latency_ms := some 200, last_tested_at := none,
       is_healthy := true, consecutive_failures := 0, is_primary := true },
     { id := 2, provider_id := "p1", app_type := "claude",
       url := "https://b", latency_ms := some 80, last_tested_at := none,
       is_healthy := true, consecutive_failures := 0, is_primary := false }]
    rfl (by decide)

/-! ## Failover switch claims -/

/-- C3: when the switch key is already in the pending set, `try_switch`
coalesces: it returns `Ok(false)`, touches neither the database state nor
the device settings, issues no collaborator call, and leaves the pending set
unchanged; moreover the insertion step that `try_switch` performs when the
key is absent keeps the pending set duplicate-free, so the set never holds a
key more than once. -/
theorem try_switch_coalesces (oracle : SwitchOracle) (pending : List String)
    (app_type provider_id provider_name : String) (db : SwitchDb)
    (h : pending.contains (app_type ++ ":" ++ provider_id) = true) :
    try_switch oracle pending app_type provider_id provider_name db =
      (Except.ok false, pending, db, []) ∧
    (∀ (p : List String) (k : String), p.Nodup → p.contains k = false →
      (k :: p).Nodup) := by
  constructor
  · have h' : (app_type ++ ":" ++ provider_id) ∈ pending := by simpa using h
    unfold try_switch
    simp [h']
  · intro p k hnd hnc
    refine List.nodup_cons.mpr ⟨?_, hnd⟩
    intro hk
    have hnm : k ∉ p := by simpa using hnc
    exact hnm hk

/-- Witness for C3 at a concrete input: the key "claude:p1" is already
pending, so the call is coalesced. -/
theorem try_switch_coalesces_witness :
    try_switch
      { proxyConfig := Except.ok { enabled := true },
        setCurrentProviderResult := Except.ok (),
        settingsResult := Except.ok () }
      ["claude:p1"] "claude" "p1" "P1"
      { current := fun _ => none, device := fun _ => none } =
      (Except.ok false, ["claude:p1"],
       { current := fun _ => none, device := fun _ => none }, []) ∧
    (∀ (p : List String) (k : String), p.Nodup → p.contains k = false →
      (k :: p).Nodup) :=
  try_switch_coalesces
    { proxyConfig := Except.ok { enabled := true },
      setCurrentProviderResult := Except.ok (),
      settingsResult := Except.ok () }
    ["claude:p1"] "claude" "p1" "P1"
    { current := fun _ => none, device := fun _ => none } (by decide)

/-- C4: when the proxy-config read for the app fails, or succeeds with
`enabled = false`, `try_switch` returns `Ok(false)`, makes no collaborator
call (in particular `set_current_provider` is never invoked) and leaves the
provider-selection state unchanged. -/
theorem try_switch_declines_when_not_enabled (oracle : SwitchOracle)
    (pending : List String) (app_type provider_id provider_name : String)
    (db : SwitchDb)
    (h : ∀ config, oracle.proxyConfig = Except.ok config →
      config.enabled = false) :
    (try_switch oracle pending app_type provider_id provider_name db).1 =
      Except.ok false ∧
    (try_switch oracle pending app_type provider_id provider_name db).2.2.1 = db ∧
    (try_switch oracle pending app_type provider_id provider_name db).2.2.2 = [] := by
  have hds : do_switch oracle app_type provider_id provider_name db =
      (Except.ok false, db, []) := by
    unfold do_switch
    cases hc : oracle.proxyConfig with
    | error e => rfl
    | ok config =>
      have := h config hc
      simp [this]
  unfold try_switch
  by_cases hp : (app_type ++ ":" ++ provider_id) ∈ pending
  · simp [hp]
  · simp [hp, hds]

/-- Witness for C4 at a concrete input: the codex app has
`ProxyAppConfig { enabled := false }`, so `try_switch("codex","p2",_)` is
declined and the current provider is untouched. -/
theorem try_switch_declines_when_not_enabled_witness :
    (try_switch
      { proxyConfig := Except.ok { enabled := false },
        setCurrentProviderResult := Except.ok (),
        settingsResult := Except.ok () }
      [] "codex" "p2" "P2"
      { current := fun _ => some "p1", device := fun _ => some "p1" }).1 =
      Except.ok false ∧
    (try_switch
      { proxyConfig := Except.ok { enabled := false },
        setCurrentProviderResult := Except.ok (),
        settingsResult := Except.ok () }
      [] "codex" "p2" "P2"
      { current := fun _ => some "p1", device := fun _ => some "p1" }).2.2.1 =
      { current := fun _ => some "p1", device := fun _ => some "p1" } ∧
    (try_switch
      { proxyConfig := Except.ok { enabled := false },
        setCurrentProviderResult := Except.ok (),
        settingsResult := Except.ok () }
      [] "codex" "p2" "P2"
      { current := fun _ => some "p1", device := fun _ => some "p1" }).2.2.2 =
      [] :=
  try_switch_declines_when_not_enabled
    { proxyConfig := Except.ok { enabled := false },
      setCurrentProviderResult := Except.ok (),
      settingsResult := Except.ok () }
    [] "codex" "p2" "P2"
    { current := fun _ => some "p1", device := fun _ => some "p1" }
    (fun config hc => by cases hc; rfl)

/-- C8: on every *return* path of `do_switch` — `Ok(true)`, `Ok(false)` or
an error, i.e. every path representable in this embedding — `try_switch`
removes the key it inserted and hands back the pending set it was given.
The claim additionally demands removal on panic-equivalent unwinding, and
there the code falls short of its own cleanup comment: the removal block in
`failover_switch.rs` is plain sequential code after the `do_switch` await,
with no unwind or drop guard, so a panic inside `do_switch` leaves the key
in `pending_switches` permanently; that exit path has no counterpart in
this embedding's total functions. -/
theorem try_switch_pending_restored (oracle : SwitchOracle)
    (pending : List String) (app_type provider_id provider_name : String)
    (db : SwitchDb) :
    (try_switch oracle pending app_type provider_id provider_name db).2.1 =
      pending := by
  unfold try_switch
  by_cases hp : (app_type ++ ":" ++ provider_id) ∈ pending
  · simp [hp]
  · simp [hp, List.erase_cons_head]

/-- C9: for an app-type string that does not parse as one of the three known
variants, with the proxy config read succeeding with `enabled = true` and
the database write succeeding, `try_switch` returns the invalid-app-type
error only *after* `Database.set_current_provider` has run: the database's
current provider is already flipped to the new provider, while the
device-local settings write never happens. -/
theorem try_switch_nonatomic_on_bad_app_type (oracle : SwitchOracle)
    (pending : List String) (app_type provider_id provider_name : String)
    (db : SwitchDb)
    (hparse : AppType.fromStr app_type = none)
    (hconfig : oracle.proxyConfig = Except.ok { enabled := true })
    (hset : oracle.setCurrentProviderResult = Except.ok ())
    (hpend : pending.contains (app_type ++ ":" ++ provider_id) = false) :
    (try_switch oracle pending app_type provider_id provider_name db).1 =
      Except.error ("无效的应用类型: " ++ app_type) ∧
    (try_switch oracle pending app_type provider_id provider_name db).2.2.1.current
      app_type = some provider_id ∧
    (try_switch oracle pending app_type provider_id provider_name db).2.2.1.device =
      db.device ∧
    (try_switch oracle pending app_type provider_id provider_name db).2.2.2 =
      [DbEffect.setCurrentProvider app_type provider_id] := by
  have hds : do_switch oracle app_type provider_id provider_name db =
      (Except.error ("无效的应用类型: " ++ app_type),
       { db with current := fun a =>
           if a == app_type then some provider_id else db.current a },
       [DbEffect.setCurrentProvider app_type provider_id]) := by
    unfold do_switch
    rw [hconfig, hset]
    simp [hparse]
  have hpend' : (app_type ++ ":" ++ provider_id) ∉ pending := by simpa using hpend
  unfold try_switch
  simp [hpend', hds]

/-- Witness for C9 at a concrete input: the unknown app type "cursor" with
an enabled proxy config; the database flip to "p2" is committed, the
settings are untouched, and the call errors. -/
theorem try_switch_nonatomic_on_bad_app_type_witness :
    (try_switch
      { proxyConfig := Except.ok { enabled := true },
        setCurrentProviderResult := Except.ok (),
        settingsResult := Except.ok () }
      [] "cursor" "p2" "P2"
      { current := fun _ => none, device := fun _ => none }).1 =
      Except.error ("无效的应用类型: " ++ "cursor") ∧
    (try_switch
      { proxyConfig := Except.ok { enabled := true },
        setCurrentProviderResult := Except.ok (),
        settingsResult := Except.ok () }
      [] "cursor" "p2" "P2"
      { current := fun _ => none, device := fun _ => none }).2.2.1.current
      "cursor" = some "p2" ∧
    (try_switch
      { proxyConfig := Except.ok { enabled := true },
        setCurrentProviderResult := Except.ok (),
        settingsResult := Except.ok () }
      [] "cursor" "p2" "P2"
      { current := fun _ => none, device := fun _ => none }).2.2.1.device =
      (fun _ => none) ∧
    (try_switch
      { proxyConfig := Except.ok { enabled := true },
        setCurrentProviderResult := Except.ok (),
        settingsResult := Except.ok () }
      [] "cursor" "p2" "P2"
      { current := fun _ => none, device := fun _ => none }).2.2.2 =
      [DbEffect.setCurrentProvider "cursor" "p2"] :=
  try_switch_nonatomic_on_bad_app_type
    { proxyConfig := Except.ok { enabled := true },
      setCurrentProviderResult := Except.ok (),
      settingsResult := Except.ok () }
    [] "cursor" "p2" "P2"
    { current := fun _ => none, device := fun _ => none }
    (by decide) rfl rfl (by decide)

/-! ## Persisted health after `record_url_result` -/

theorem record_success_state_ne_open (cb : CircuitBreaker) (p : Bool) :
    (cb.record_success p).state ≠ CircuitState.Open := by
  unfold CircuitBreaker.record_success
  cases hs : cb.state <;> simp <;> split <;> simp

theorem record_success_cf_zero (cb : CircuitBreaker) (p : Bool) :
    (cb.record_success p).consecutive_failures = 0 := by
  unfold CircuitBreaker.record_success
  cases hs : cb.state <;> simp <;> split <;> simp

theorem find?_map_update (url : String) (L : Option Nat) (h : Bool) (cf : Nat)
    (db : List ProviderEndpoint)
    (hany : db.any (fun e => e.url == url) = true) :
    ∃ r,
      (db.map (fun e =>
        if e.url == url then
          { e with latency_ms := L, is_healthy := h, consecutive_failures := cf }
        else e)).find? (fun e => e.url == url) = some r ∧
      r.latency_ms = L ∧ r.is_healthy = h ∧ r.consecutive_failures = cf := by
  induction db with
  | nil => simp at hany
  | cons e tl ih =>
    by_cases he : (e.url == url) = true
    · have hfind :
        ((e :: tl).map (fun e =>
          if e.url == url then
            { e with latency_ms := L, is_healthy := h,
                     consecutive_failures := cf }
          else e)).find? (fun e => e.url == url) =
          some { e with latency_ms := L, is_healthy := h,
                        consecutive_failures := cf } := by
        rw [List.map_cons, if_pos he]
        exact List.find?_cons_of_pos _ he
      exact ⟨_, hfind, rfl, rfl, rfl⟩
    · have hany' : tl.any (fun e => e.url == url) = true := by
        rw [List.any_cons] at hany
        rcases Bool.or_eq_true_iff.mp hany with hh | hh
        · exact absurd hh he
        · exact hh
      obtain ⟨r, hr, h1, h2, h3⟩ := ih hany'
      refine ⟨r, ?_, h1, h2, h3⟩
      rw [List.map_cons, if_neg he]
      have hstep :
          List.find? (fun e => e.url == url)
            (e :: (tl.map (fun e =>
              if e.url == url then
                { e with latency_ms := L, is_healthy := h,
                         consecutive_failures := cf }
              else e))) =
          List.find? (fun e => e.url == url)
            (tl.map (fun e =>
              if e.url == url then
                { e with latency_ms := L, is_healthy := h,
                         consecutive_failures := cf }
              else e)) := List.find?_cons_of_neg _ he
      rw [hstep]
      exact hr

theorem findEndpoint_after_update (app_type provider_id url : String)
    (L : Option Nat) (h : Bool) (cf : Nat) (db : EndpointDb) :
    ∃ r,
      findEndpoint
        (update_endpoint_health app_type provider_id url L h cf db) url = some r ∧
      r.latency_ms = L ∧ r.is_healthy = h ∧ r.consecutive_failures = cf := by
  unfold update_endpoint_health findEndpoint
  by_cases hany : db.any (fun e => e.url == url) = true
  · rw [if_pos hany]
    exact find?_map_update url L h cf db hany
  · rw [if_neg hany]
    have hnone : db.find? (fun e => e.url == url) = none := by
      rw [List.find?_eq_none]
      intro x hx hpx
      exact hany (List.any_eq_true.mpr ⟨x, hx, hpx⟩)
    have hfind :
        (db ++ ([{ id := 0, provider_id := provider_id, app_type := app_type,
                   url := url, latency_ms := L, last_tested_at := none,
                   is_healthy := h, consecutive_failures := cf,
                   is_primary := false }] : List ProviderEndpoint)).find?
            (fun e => e.url == url) =
          some { id := 0, provider_id := provider_id, app_type := app_type,
                 url := url, latency_ms := L, last_tested_at := none,
                 is_healthy := h, consecutive_failures := cf,
                 is_primary := false } := by
      rw [List.find?_append, hnone]
      simp [List.find?]
    exact ⟨_, hfind, rfl, rfl, rfl⟩

/-- C7: after `record_url_result`, the persisted record for the URL carries
the reported latency, `is_healthy = (post-update breaker state ≠ Open)` and
the `consecutive_failures` read from the same breaker call's post-update
stats; in particular a success yields `is_healthy = true`,
`latency_ms = L`, `consecutive_failures = 0` (in this embedding the
database write always succeeds, matching the claim's proviso). -/
theorem record_url_result_persists (provider_id app_type url : String)
    (success : Bool) (L : Option Nat) (breaker : CircuitBreaker) (now : Nat)
    (db : EndpointDb) :
    ∃ r,
      findEndpoint
        (record_url_result provider_id app_type url success L breaker now db).2.1
        url = some r ∧
      r.latency_ms = L ∧
      r.is_healthy =
        ((record_url_result provider_id app_type url success L breaker now
          db).1.get_state != CircuitState.Open) ∧
      r.consecutive_failures =
        (record_url_result provider_id app_type url success L breaker now
          db).1.get_stats.consecutive_failures ∧
      (success = true →
        r.is_healthy = true ∧ r.consecutive_failures = 0) := by
  obtain ⟨r, hr, h1, h2, h3⟩ := findEndpoint_after_update app_type provider_id url L
    ((if success then breaker.record_success false
      else breaker.record_failure false now).get_state != CircuitState.Open)
    ((if success then breaker.record_success false
      else breaker.record_failure false now).get_stats.consecutive_failures) db
  refine ⟨r, hr, h1, h2, h3, ?_⟩
  intro hsuc
  subst hsuc
  simp only [if_true] at h2 h3
  constructor
  · rw [h2]
    exact bne_iff_ne.mpr (record_success_state_ne_open breaker false)
  · rw [h3]
    exact record_success_cf_zero breaker false

/-- Witness for C7 at a concrete input: a successful request with latency
55 ms against a fresh breaker persists healthy with zero failures. -/
theorem record_url_result_persists_witness :
    ∃ r,
      findEndpoint
        (record_url_result "p1" "claude" "https://a" true (some 55)
          { config := {} } 0
          [{ id := 1, provider_id := "p1", app_type := "claude",
             url := "https://a", latency_ms := some 100, last_tested_at := none,
             is_healthy := true, consecutive_failures := 0,
             is_primary := true }]).2.1 "https://a" = some r ∧
      r.latency_ms = some 55 ∧
      r.is_healthy =
        ((record_url_result "p1" "claude" "https://a" true (some 55)
          { config := {} } 0
          [{ id := 1, provider_id := "p1", app_type := "claude",
             url := "https://a", latency_ms := some 100, last_tested_at := none,
             is_healthy := true, consecutive_failures := 0,
             is_primary := true }]).1.get_state != CircuitState.Open) ∧
      r.consecutive_failures =
        (record_url_result "p1" "claude" "https://a" true (some 55)
          { config := {} } 0
          [{ id := 1, provider_id := "p1", app_type := "claude",
             url := "https://a", latency_ms := some 100, last_tested_at := none,
             is_healthy := true, consecutive_failures := 0,
             is_primary := true }]).1.get_stats.consecutive_failures ∧
      (true = true → r.is_healthy = true ∧ r.consecutive_failures = 0) :=
  record_url_result_persists "p1" "claude" "https://a" true (some 55)
    { config := {} } 0
    [{ id := 1, provider_id := "p1", app_type := "claude", url := "https://a",
       latency_ms := some 100, last_tested_at := none, is_healthy := true,
       consecutive_failures := 0, is_primary := true }]

/-! ## Latency probe cycle -/

/-- C10: when `Database.get_best_endpoint_url` answers `None` (no healthy
endpoint exists), `update_primary_endpoint` returns `Ok` without calling
`set_primary_endpoint`: the endpoint table — in particular every
`is_primary` flag — is left exactly as it was. -/
theorem update_primary_endpoint_none_noop (app_type provider_id : String)
    (db : EndpointDb) :
    update_primary_endpoint app_type provider_id (Except.ok none) db =
      (Except.ok (), db, []) := rfl

theorem processSpeedResult_effects_mono (app_type provider_id : String)
    (snapshot : List ProviderEndpoint) (now : Nat) (r : SpeedResult)
    (st : EndpointDb × BreakerMap × List DbEffect) (x : DbEffect)
    (hx : x ∈ st.2.2) :
    x ∈ (processSpeedResult app_type provider_id snapshot now r st).2.2 := by
  obtain ⟨db, breakers, effects⟩ := st
  unfold processSpeedResult
  cases hf : snapshot.find? (fun e => e.url == r.url) with
  | none => simpa using hx
  | some ep =>
    simp only [record_url_result]
    exact List.mem_append_left _ hx

theorem processSpeedResult_emits (app_type provider_id : String)
    (snapshot : List ProviderEndpoint) (now : Nat) (r : SpeedResult)
    (st : EndpointDb × BreakerMap × List DbEffect) (ep : ProviderEndpoint)
    (hep : snapshot.find? (fun e => e.url == r.url) = some ep) :
    DbEffect.updateEndpointHealth app_type provider_id r.url r.latency
      (r.error.isNone && r.latency.isSome)
      (if r.error.isNone && r.latency.isSome then 0
       else ep.consecutive_failures + 1) ∈
      (processSpeedResult app_type provider_id snapshot now r st).2.2 := by
  obtain ⟨db, breakers, effects⟩ := st
  unfold processSpeedResult
  simp only [hep, record_url_result]
  exact List.mem_append_right _ (List.mem_cons_self _ _)

theorem foldl_process_effects_mono (app_type provider_id : String)
    (snapshot : List ProviderEndpoint) (now : Nat) (results : List SpeedResult)
    (st : EndpointDb × BreakerMap × List DbEffect) (x : DbEffect)
    (hx : x ∈ st.2.2) :
    x ∈ (results.foldl
      (fun st r => processSpeedResult app_type provider_id snapshot now r st)
      st).2.2 := by
  induction results generalizing st with
  | nil => simpa using hx
  | cons a tl ih =>
    exact ih _ (processSpeedResult_effects_mono app_type provider_id snapshot
      now a st x hx)

theorem foldl_process_emits (app_type provider_id : String)
    (snapshot : List ProviderEndpoint) (now : Nat) (results : List SpeedResult)
    (st : EndpointDb × BreakerMap × List DbEffect) (r : SpeedResult)
    (hr : r ∈ results) (ep : ProviderEndpoint)
    (hep : snapshot.find? (fun e => e.url == r.url) = some ep) :
    DbEffect.updateEndpointHealth app_type provider_id r.url r.latency
      (r.error.isNone && r.latency.isSome)
      (if r.error.isNone && r.latency.isSome then 0
       else ep.consecutive_failures + 1) ∈
      (results.foldl
        (fun st r => processSpeedResult app_type provider_id snapshot now r st)
        st).2.2 := by
  induction results generalizing st with
  | nil => simp at hr
  | cons a tl ih =>
    rcases List.mem_cons.mp hr with h | h
    · rw [h]
      exact foldl_process_effects_mono app_type provider_id snapshot now tl _ _
        (processSpeedResult_emits app_type provider_id snapshot now a st ep
          (h ▸ hep))
    · exact ih (processSpeedResult app_type provider_id snapshot now a st) h

/-- C5 counterexample: after a probe of `https://a` fails (`latency = none`,
`error = some`), the record the claim requires would have
`is_healthy = false` and `consecutive_failures = old + 1 = 6`; but the
breaker-sync write issued by `record_url_result` right after the health
write overwrites it from a fresh Closed breaker, so the record persisted
when `test_provider_endpoints` completes has `is_healthy = true` and
`consecutive_failures = 1`. -/
theorem test_provider_endpoints_final_health_cex :
    (findEndpoint
      (test_provider_endpoints "claude" "p1"
        (Except.ok [{ url := "https://a", latency := none,
                      error := some "timeout" }])
        (Except.ok none) 0
        [{ id := 1, provider_id := "p1", app_type := "claude",
           url := "https://a", latency_ms := some 100, last_tested_at := none,
           is_healthy := true, consecutive_failures := 5, is_primary := true }]
        (fun _ => { config := {} })).2.1 "https://a").map
      (fun r => (r.is_healthy, r.consecutive_failures)) = some (true, 1) := rfl

/-- C5 (amended): for every probed URL found in the endpoint snapshot,
`test_provider_endpoints` *issues* an `update_endpoint_health` write with
`is_healthy = (error is None AND latency is Some)` and
`consecutive_failures = 0` if healthy, otherwise the snapshot's stored value
+ 1; the record persisted when the call completes, however, is the one of
the subsequent `record_url_result` breaker-sync write
(`is_healthy = breaker state ≠ Open`, `consecutive_failures` from the
breaker stats), which may differ. -/
theorem test_provider_endpoints_issues_health_write
    (app_type provider_id : String) (results : List SpeedResult)
    (best : Except String (Option String)) (now : Nat) (db : EndpointDb)
    (breakers : BreakerMap) (r : SpeedResult) (hr : r ∈ results)
    (ep : ProviderEndpoint)
    (hep : db.find? (fun e => e.url == r.url) = some ep) :
    DbEffect.updateEndpointHealth app_type provider_id r.url r.latency
      (r.error.isNone && r.latency.isSome)
      (if r.error.isNone && r.latency.isSome then 0
       else ep.consecutive_failures + 1) ∈
      (test_provider_endpoints app_type provider_id (Except.ok results) best now
        db breakers).2.2.2 := by
  have hne : db.isEmpty = false := by
    cases db with
    | nil => simp [List.find?] at hep
    | cons a t => rfl
  have hfold := foldl_process_emits app_type provider_id db now results
    (db, breakers, []) r hr ep hep
  unfold test_provider_endpoints
  simp only [hne, Bool.false_eq_true, if_false]
  cases best with
  | error e => exact List.mem_append_left _ hfold
  | ok b =>
    cases b with
    | none => exact List.mem_append_left _ hfold
    | some u => exact List.mem_append_left _ hfold

/-- Witness for the amended C5 at a concrete input: a healthy probe of
`https://a` with latency 55 issues the claimed health write. -/
theorem test_provider_endpoints_issues_health_write_witness :
    DbEffect.updateEndpointHealth "claude" "p1" "https://a" (some 55)
      ((none : Option String).isNone && (some 55 : Option Nat).isSome)
      (if (none : Option String).isNone && (some 55 : Option Nat).isSome then 0
       else 5 + 1) ∈
      (test_provider_endpoints "claude" "p1"
        (Except.ok [{ url := "https://a", latency := some 55, error := none }])
        (Except.ok (some "https://a")) 0
        [{ id := 1, provider_id := "p1", app_type := "claude",
           url := "https://a", latency_ms := some 100, last_tested_at := none,
           is_healthy := true, consecutive_failures := 5, is_primary := true }]
        (fun _ => { config := {} })).2.2.2 := by
  have := test_provider_endpoints_issues_health_write "claude" "p1"
    [{ url := "https://a", latency := some 55, error := none }]
    (Except.ok (some "https://a")) 0
    [{ id := 1, provider_id := "p1", app_type := "claude", url := "https://a",
       latency_ms := some 100, last_tested_at := none, is_healthy := true,
       consecutive_failures := 5, is_primary := true }]
    (fun _ => { config := {} })
    { url := "https://a", latency := some 55, error := none }
    (by decide)
    { id := 1, provider_id := "p1", app_type := "claude", url := "https://a",
      latency_ms := some 100, last_tested_at := none, is_healthy := true,
      consecutive_failures := 5, is_primary := true }
    rfl
  simpa using this

end CcSwitch
